import Mathlib

set_option linter.unusedVariables false

/-!
Verification of the multi-view visualization-spec compiler and cross-view
interaction synchronizer of graphic-walker, a shallow embedding of
`packages/graphic-walker/src/vis/react-vega.tsx` and
`packages/graphic-walker/src/renderer/index.tsx`.
-/

namespace GraphicWalker

/-! ## Data model

`IViewField` embeds the field descriptor used by the channel assignment:
a column id `fid` and its analytic role (`dimension` or `measure`).
The TS `NULL_FIELD` sentinel is embedded as `none` of `Option IViewField`.
-/

inductive AnalyticType where
  | dimension
  | measure
deriving DecidableEq

structure IViewField where
  fid : String
  analyticType : AnalyticType
deriving DecidableEq

/-! ## View Grid Planner (react-vega.tsx lines 120-139)

The axis derivations are identical for the `rows` and the `columns` axis,
so each is embedded once as a function of the axis field list:
`dimFields`/`measureFields` embed `rowDims`/`rowMeas` (and `colDims`/`colMeas`),
`facetFields` embeds `rowFacetFields`/`colFacetFields` (`rowDims.slice(0, -1)`),
`repeatFields` embeds `rowRepeatFields`/`colRepeatFields`
(`rowMeas.length === 0 ? rowDims.slice(-1) : rowMeas`).
-/

def dimFields (fs : List IViewField) : List IViewField :=
  fs.filter (fun f => f.analyticType == AnalyticType.dimension)

def measureFields (fs : List IViewField) : List IViewField :=
  fs.filter (fun f => f.analyticType == AnalyticType.measure)

/-- JS `l.slice(-1)`: the list holding the last element, `[]` on the empty list. -/
def sliceLastOne (l : List α) : List α := l.drop (l.length - 1)

def facetFields (fs : List IViewField) : List IViewField :=
  (dimFields fs).dropLast

def repeatFields (fs : List IViewField) : List IViewField :=
  if measureFields fs = [] then sliceLastOne (dimFields fs) else measureFields fs

/-- `setViewPlaceholders` effect (lines 132-139):
`viewNum = Math.max(1, rowRepeatFields.length * colRepeatFields.length)`. -/
def viewNum (rows columns : List IViewField) : Nat :=
  max 1 ((repeatFields rows).length * (repeatFields columns).length)

/-! ## Facet field actually bound into each view (lines 147-154)

Inside the embed effect the facet field handed to `getSingleView`'s
`row`/`column` channel is recomputed from the raw axis, not from
`facetFields`: `rowLeftFacetFields = rows.slice(0, -1).filter(f =>
f.analyticType === 'dimension')` and `rowFacetField` is its last element,
or `NULL_FIELD` (here `none`) when it is empty.
-/

def leftFacetFields (fs : List IViewField) : List IViewField :=
  fs.dropLast.filter (fun f => f.analyticType == AnalyticType.dimension)

def facetField (fs : List IViewField) : Option IViewField :=
  (leftFacetFields fs).getLast?

/-! ## Composite spec params (lines 128, 156-174) -/

/-- `allFieldIds = [...rows, ...columns, color, opacity, size].filter(Boolean).map(f => f.fid)`
(line 128).  `shape`, `theta`, `radius` and `details` are channel props of the
component but are not consulted here, exactly as in the source. -/
def allFieldIds (rows columns : List IViewField)
    (color opacity size : Option IViewField) : List String :=
  (((rows ++ columns).map some) ++ [color, opacity, size]).reduceOption.map (fun f => f.fid)

/-- A top-level spec parameter: the point selection (`SELECTION_NAME = 'geom'`,
with its `fields` list) or the interval selection bound to scales. -/
inductive SpecParam where
  | point (nm : String) (fields : List String)
  | interval (nm : String) (bind : String)
deriving DecidableEq

/-- `spec.params` (lines 160-174): always the point-selection parameter named
`geom` with `fields = allFieldIds`; when `interactiveScale` is set, also the
interval parameter named `grid` bound to scales. -/
def specParams (fieldIds : List String) (interactiveScale : Bool) : List SpecParam :=
  [SpecParam.point "geom" fieldIds] ++
    (if interactiveScale then [SpecParam.interval "grid" "scales"] else [])

/-- The params of the compiled composite spec as a function of every channel
binding the component receives.  `shape`, `theta`, `radius` and `details` are
taken as arguments (they are channel-bound in the component) but, as at line
128 of the source, do not flow into `allFieldIds`. -/
def compiledParams (rows columns : List IViewField)
    (color opacity size shape theta radius : Option IViewField)
    (details : List IViewField) (interactiveScale : Bool) : List SpecParam :=
  specParams (allFieldIds rows columns color opacity size) interactiveScale

/-- The `fields` list of the point-selection parameters among `ps`. -/
def pointFields (ps : List SpecParam) : List String :=
  ps.foldr (fun p acc => match p with
    | SpecParam.point _ fs => fs ++ acc
    | SpecParam.interval _ _ => acc) []

/-! ## Render Orchestrator (lines 141-343, 384-449)

A renderer handle (`res.view` of a resolved `embed`) is embedded as a `View`
exposing its vector and raster exports.  The orchestrator state carries
`vegaRefs.current` (the recorded handles, in push order) and the values
emitted on the readiness channel `ready$`.
-/

structure View where
  svg : String
  png : String
deriving DecidableEq

structure OrchState where
  vegaRefs : List View
  readyEvents : List Bool
deriving DecidableEq

def initOrch : OrchState := ⟨[], []⟩

/-- The embed effect starts with `vegaRefs.current = []` (line 145). -/
def effectReset (s : OrchState) : OrchState := { s with vegaRefs := [] }

/-- The branch condition at line 175:
`rowRepeatFields.length <= 1 && colRepeatFields.length <= 1` selects the
single-view embed branch. -/
def singleViewBranch (rows columns : List IViewField) : Bool :=
  (repeatFields rows).length ≤ 1 && (repeatFields columns).length ≤ 1

/-- The `.then` callback of the single-view embed branch (lines 208-221): it
emits `ready$.current.next(true)` and attaches the click/selection listeners;
it never pushes `res.view` onto `vegaRefs.current`. -/
def singleEmbedThen (v : View) (s : OrchState) : OrchState :=
  { s with readyEvents := s.readyEvents ++ [true] }

/-- The `.then` callback of one multi-view embed (lines 276-333): after wiring
the bus listeners it calls `viewResolves[idx]()` and pushes `res.view` onto
`vegaRefs.current` (line 332). -/
def multiEmbedThen (v : View) (s : OrchState) : OrchState :=
  { s with vegaRefs := s.vegaRefs ++ [v] }

/-- One full single-view embed cycle in which the embed resolves with handle
`v`: the effect resets `vegaRefs` and the `.then` callback runs. -/
def runSingleCycle (v : View) (s : OrchState) : OrchState :=
  singleEmbedThen v (effectReset s)

/-- One full multi-view embed cycle in which every cell's embed resolves, the
handles arriving in completion order `vs`; once all `viewPromises` resolve,
`Promise.all(viewPromises).then(() => ready$.current.next(true))` (lines
337-339) emits readiness. -/
def runMultiCycle (vs : List View) (s : OrchState) : OrchState :=
  let s1 := vs.foldl (fun acc v => multiEmbedThen v acc) (effectReset s)
  { s1 with readyEvents := s1.readyEvents ++ [true] }

/-! ### The readiness fan-in (lines 242, 275, 337-339)

`viewPromises[idx]` resolves exactly when cell `idx`'s embed `.then` callback
runs; a rejected embed never runs it.  Each cell's settling is embedded as
`Option Nat`: `some t` when its promise resolves at time `t`, `none` when the
embed rejects (its resolver is never called).  `promiseAllTime` is the
semantics of the `Promise.all` fan-in: it resolves, at the time the last
constituent resolves, only if all do. -/

/-- Fan-in of one settling into the aggregate: a pending (`none`) constituent
keeps the aggregate pending; two resolutions resolve at the later time. -/
def settleStep (o acc : Option Nat) : Option Nat :=
  match o, acc with
  | some t, some m => some (max t m)
  | _, _ => none

def promiseAllTime (ts : List (Option Nat)) : Option Nat :=
  ts.foldr settleStep (some 0)

/-- The time at which `ready$.current.next(true)` fires for a multi-view
cycle whose per-cell settlings are `ts` (`none` = never). -/
def readyEmitTime (ts : List (Option Nat)) : Option Nat :=
  promiseAllTime ts

/-! ### The readiness query `ready()` (lines 394-399)

`ready$` is a plain rxjs `Subject` (line 142): a subscriber sees only the
values emitted after it subscribes, never past ones.  `ready()` returns
`firstValueFrom(ready$.pipe(startWith(false), first(state => state)))`: the
subscription sees `false` followed by the post-call emissions, and the
promise resolves with the first of these values that is `true` (and never
resolves when there is none; a `Subject` never completes). -/

def subjectValuesSeen (past future : List Bool) : List Bool := future

def readyCallResolution (past future : List Bool) : Option Bool :=
  (false :: subjectValuesSeen past future).find? (fun b => b)

/-! ## Interaction Bus (lines 229-311)

`ParamStoreEntry` carries the fired signal name, the emitting view's index
(`source`) and the selection-store snapshot.  In JS the snapshot pushed is
`data ?? null` where `data` is the (possibly empty) array read from
`getState().data[name_store]`; it is embedded as `Option (List Nat)` with
`none` for `null`/absent and `some xs` for an array `xs` (possibly `[]`).
-/

def BRUSH_SIGNAL_NAME : String := "__gw_brush__"
def POINT_SIGNAL_NAME : String := "__gw_point__"

structure ParamStoreEntry where
  signal : String
  source : Nat
  data : Option (List Nat)
deriving DecidableEq

/-- The per-cell, per-param listener state: the cell's `sourceId`, its
one-shot `noBroadcasting` suppression flag and its renderer's current
selection store for this param. -/
structure ViewInst where
  sourceId : Nat
  noBroadcasting : Bool
  store : Option (List Nat)
deriving DecidableEq

/-- The signal listener installed at lines 284-300, firing on signal `sig`:
when `noBroadcasting` is set it clears the flag and returns without
broadcasting; otherwise, when `sig` is one of the two known store signals, it
reads the store snapshot and pushes the tagged entry onto the shared channel. -/
def onSignalFire (sig : String) (v : ViewInst) : ViewInst × List ParamStoreEntry :=
  if v.noBroadcasting then ({ v with noBroadcasting := false }, [])
  else if sig == BRUSH_SIGNAL_NAME || sig == POINT_SIGNAL_NAME then
    (v, [⟨sig, v.sourceId, v.store⟩])
  else (v, [])

/-- The receipt guard of the bus subscriber (line 302):
`entry.source === sourceId || !entry.data`.  JS `!entry.data` is true for
`null`/`undefined` only — an empty array is truthy. -/
def ignoresEntry (v : ViewInst) (e : ParamStoreEntry) : Bool :=
  e.source == v.sourceId || e.data.isNone

/-- The outcome of a view instance receiving one throttled bus entry. -/
structure ReceiveResult where
  view : ViewInst
  writes : Nat
  echoBroadcasts : List ParamStoreEntry
deriving DecidableEq

/-- The bus subscriber (lines 301-311) followed by the one re-triggered
self-emission its `setState` causes: when the entry is not ignored the
subscriber sets `noBroadcasting`, writes the received snapshot into the
renderer's store (one `setState`), and that write fires the signal listener
once with the written signal's name. -/
def receiveEntry (v : ViewInst) (e : ParamStoreEntry) : ReceiveResult :=
  if ignoresEntry v e then ⟨v, 0, []⟩
  else
    let v1 : ViewInst := ⟨v.sourceId, true, e.data⟩
    let fire := onSignalFire e.signal v1
    ⟨fire.1, 1, fire.2⟩

/-- Delivery of one throttled entry to every current view instance. -/
def busBroadcast (views : List ViewInst) (e : ParamStoreEntry) : List ReceiveResult :=
  views.map (fun v => receiveEntry v e)

/-! ### Throttling of the shared channel (lines 230-236) -/

structure ThrottleCfg where
  interval : ℚ
  leading : Bool
  trailing : Bool
deriving DecidableEq

/-- `throttleTime(dataSource.length / 64 * rowRepeatFields.length *
colRepeatFields.length, undefined, { leading: false, trailing: true })`.
JS `/` is exact rational division here, embedded in `ℚ`. -/
def throttledParamStoreCfg (dataLen rowRepeat colRepeat : Nat) : ThrottleCfg :=
  ⟨(dataLen : ℚ) / 64 * rowRepeat * colRepeat, false, true⟩

/-! ## View Handle Façade exports (lines 411-447) -/

def getSVGData (vegaRefs : List View) : List String :=
  vegaRefs.map (fun v => v.svg)

def getCanvasData (vegaRefs : List View) : List String :=
  vegaRefs.map (fun v => v.png)

/-- A triggered client-side save (`a.click()`), recorded by the file name
given to the anchor. -/
structure SaveAction where
  filename : String
deriving DecidableEq

/-- `downloadSVG` (lines 418-434): exports every recorded handle, triggers
one save per export with an `_index` suffix when more than one view exists,
and returns the `files` array — which is initialised to `[]` and never
appended to. -/
def downloadSVG (vegaRefs : List View) (filename : String) :
    List String × List SaveAction :=
  let data := vegaRefs.map (fun v => v.svg)
  let files : List String := []
  (files, (List.range data.length).map (fun i =>
    ⟨filename ++ (if data.length > 1 then "_" ++ toString (i + 1) else "") ++ ".svg"⟩))

/-- `downloadPNG` (lines 435-447): same shape as `downloadSVG`, at raster
scale 2, `.png` names; its `files` array is likewise never populated. -/
def downloadPNG (vegaRefs : List View) (filename : String) :
    List String × List SaveAction :=
  let data := vegaRefs.map (fun v => v.png)
  let files : List String := []
  (files, (List.range data.length).map (fun i =>
    ⟨filename ++ (if data.length > 1 then "_" ++ toString (i + 1) else "") ++ ".png"⟩))

/-! ## Renderer data-pipeline effect (renderer/index.tsx lines 40-68)

The effect sets `waiting`, runs the external
`applyFilter → transformDataService → applyViewQuery` pipeline, and either
commits the new `viewData`/`encodings`/`viewConfig` batch or, on rejection,
logs the error and only clears `waiting`.  The pipeline's settling is
embedded as an `Except`. -/

structure PipelineOutput where
  data : List Nat
  encodings : Nat
  config : Nat
deriving DecidableEq

structure RendererState where
  waiting : Bool
  viewData : List Nat
  encodings : Nat
  viewConfig : Nat
  errorLog : List String
deriving DecidableEq

def runPipelineEffect (s : RendererState) (result : Except String PipelineOutput) :
    RendererState :=
  let s1 := { s with waiting := true }
  match result with
  | Except.ok out =>
      { s1 with waiting := false, viewData := out.data,
                encodings := out.encodings, viewConfig := out.config }
  | Except.error e =>
      { s1 with waiting := false, errorLog := s1.errorLog ++ [e] }

/-! ## Helper lemmas -/

theorem sliceLastOne_eq_getLast (l : List α) : sliceLastOne l = l.getLast?.toList := by
  induction l using List.reverseRecOn with
  | nil => rfl
  | append_singleton ys x ih =>
    simp only [sliceLastOne, List.getLast?_concat, Option.toList_some,
      List.length_append, List.length_cons, List.length_nil]
    have h1 : ys.length + (0 + 1) - 1 = ys.length := by omega
    rw [h1, List.drop_left]

theorem dimFields_eq_self_of_no_measures (fs : List IViewField)
    (h : measureFields fs = []) : dimFields fs = fs := by
  rw [dimFields, List.filter_eq_self]
  intro f hf
  have hm := List.filter_eq_nil_iff.mp h f hf
  cases hA : f.analyticType with
  | dimension => simp
  | measure => exact absurd (by simp [hA]) hm

theorem repeatFields_length_le_one (fs : List IViewField)
    (h : measureFields fs = []) : (repeatFields fs).length ≤ 1 := by
  rw [repeatFields, if_pos h, sliceLastOne_eq_getLast]
  cases (dimFields fs).getLast? <;> simp

/-! ## Claim C4 -/

/-- Claim C4: an axis's repeat fields equal the axis's measure fields when at
least one measure is present, and otherwise the singleton of the axis's last
dimension field (empty when the axis has no fields); the number of view
placeholders is `max(1, rowRepeatCount * colRepeatCount)`, so zero measures on
both axes yields exactly one view and a nonempty set of `M` measures on the
column axis with zero on the row axis yields `colCount = M`. -/
theorem c4_repeat_fields_grid (axis rows columns : List IViewField) :
    (measureFields axis ≠ [] → repeatFields axis = measureFields axis)
    ∧ (measureFields axis = [] → repeatFields axis = (dimFields axis).getLast?.toList)
    ∧ (axis = [] → repeatFields axis = [])
    ∧ viewNum rows columns = max 1 ((repeatFields rows).length * (repeatFields columns).length)
    ∧ (measureFields rows = [] → measureFields columns = [] → viewNum rows columns = 1)
    ∧ (measureFields rows = [] → measureFields columns ≠ [] →
        (repeatFields columns).length = (measureFields columns).length) := by
  refine ⟨?_, ?_, ?_, rfl, ?_, ?_⟩
  · intro h
    rw [repeatFields, if_neg h]
  · intro h
    rw [repeatFields, if_pos h, sliceLastOne_eq_getLast]
  · intro h
    subst h
    rfl
  · intro hr hc
    have lr := repeatFields_length_le_one rows hr
    have lc := repeatFields_length_le_one columns hc
    rw [viewNum]
    have : (repeatFields rows).length * (repeatFields columns).length ≤ 1 :=
      Nat.le_trans (Nat.mul_le_mul lr lc) (by omega)
    omega
  · intro hr hc
    rw [repeatFields, if_neg hc]

/-- Witness for C4 at concrete inputs: two measures on an axis repeat as the
measures themselves, and two all-dimension axes yield a single view. -/
theorem c4_repeat_fields_grid_witness :
    repeatFields [⟨"m1", AnalyticType.measure⟩, ⟨"m2", AnalyticType.measure⟩]
        = measureFields [⟨"m1", AnalyticType.measure⟩, ⟨"m2", AnalyticType.measure⟩]
    ∧ viewNum [⟨"d1", AnalyticType.dimension⟩] [⟨"d2", AnalyticType.dimension⟩] = 1
    ∧ (repeatFields [⟨"m1", AnalyticType.measure⟩, ⟨"m2", AnalyticType.measure⟩]).length
        = (measureFields [⟨"m1", AnalyticType.measure⟩, ⟨"m2", AnalyticType.measure⟩]).length := by
  refine ⟨?_, ?_, ?_⟩
  · exact (c4_repeat_fields_grid
      [⟨"m1", AnalyticType.measure⟩, ⟨"m2", AnalyticType.measure⟩] [] []).1 (by decide)
  · exact (c4_repeat_fields_grid []
      [⟨"d1", AnalyticType.dimension⟩] [⟨"d2", AnalyticType.dimension⟩]).2.2.2.2.1
      (by decide) (by decide)
  · exact (c4_repeat_fields_grid []
      [] [⟨"m1", AnalyticType.measure⟩, ⟨"m2", AnalyticType.measure⟩]).2.2.2.2.2
      (by decide) (by decide)

/-! ## Claim C5

The claim says the facet field bound into each view is the last of
`facetFields` (the all-but-last *dimension* fields), "including for
assignments where the last field on the axis is a measure preceded by
dimensions".  The source computes the bound field from
`rows.slice(0, -1).filter(dimension)` — drop the last *field*, then filter —
which differs from `facetFields = rowDims.slice(0, -1)` precisely when the
axis ends in a measure preceded by at least one dimension. -/

/-- Counterexample to claim C5: on the axis `[dimension "A", measure "B"]`
the facet fields are `[]`, so the claim predicts the null field (`none`) is
bound, but the code binds dimension `"A"`. -/
theorem c5_facet_counterexample :
    facetField [⟨"A", AnalyticType.dimension⟩, ⟨"B", AnalyticType.measure⟩]
      = some ⟨"A", AnalyticType.dimension⟩
    ∧ facetFields [⟨"A", AnalyticType.dimension⟩, ⟨"B", AnalyticType.measure⟩] = []
    ∧ facetField [⟨"A", AnalyticType.dimension⟩, ⟨"B", AnalyticType.measure⟩]
      ≠ (facetFields [⟨"A", AnalyticType.dimension⟩, ⟨"B", AnalyticType.measure⟩]).getLast? := by
  refine ⟨by decide, by decide, by decide⟩

/-- Claim C5 (amended): the facet fields are the all-but-the-last dimension
fields of the axis, and the bound facet field is the last dimension among all
but the last *field* of the axis; when the axis's last field is a dimension
this is the last of the facet fields (the null field `none` when there are
none, in particular on the empty axis), but when the last field is a measure
it is the axis's last dimension itself. -/
theorem c5_facet_fields (fs : List IViewField) :
    facetFields fs = (dimFields fs).dropLast
    ∧ facetField fs = (leftFacetFields fs).getLast?
    ∧ (fs = [] → facetField fs = none)
    ∧ (∀ f, fs.getLast? = some f → f.analyticType = AnalyticType.dimension →
        facetField fs = (facetFields fs).getLast?)
    ∧ (∀ f, fs.getLast? = some f → f.analyticType = AnalyticType.measure →
        facetField fs = (dimFields fs).getLast?) := by
  refine ⟨rfl, rfl, ?_, ?_, ?_⟩
  · intro h
    subst h
    rfl
  · intro f hf hdim
    induction fs using List.reverseRecOn with
    | nil => simp at hf
    | append_singleton ys x ih =>
      rw [List.getLast?_concat] at hf
      have hx : x = f := Option.some.inj hf
      subst hx
      simp [facetField, leftFacetFields, facetFields, dimFields,
        List.filter_append, List.dropLast_concat, hdim]
  · intro f hf hmeas
    induction fs using List.reverseRecOn with
    | nil => simp at hf
    | append_singleton ys x ih =>
      rw [List.getLast?_concat] at hf
      have hx : x = f := Option.some.inj hf
      subst hx
      simp [facetField, leftFacetFields, facetFields, dimFields,
        List.filter_append, List.dropLast_concat, hmeas]

/-- Witness for the amended C5 at concrete inputs: an axis ending in a
dimension binds the last facet field, an axis ending in a measure binds the
axis's last dimension. -/
theorem c5_facet_fields_witness :
    facetField [⟨"A", AnalyticType.dimension⟩, ⟨"B", AnalyticType.dimension⟩]
      = (facetFields [⟨"A", AnalyticType.dimension⟩, ⟨"B", AnalyticType.dimension⟩]).getLast?
    ∧ facetField [⟨"A", AnalyticType.dimension⟩, ⟨"B", AnalyticType.measure⟩]
      = (dimFields [⟨"A", AnalyticType.dimension⟩, ⟨"B", AnalyticType.measure⟩]).getLast? := by
  refine ⟨?_, ?_⟩
  · exact (c5_facet_fields
      [⟨"A", AnalyticType.dimension⟩, ⟨"B", AnalyticType.dimension⟩]).2.2.2.1
      ⟨"B", AnalyticType.dimension⟩ (by decide) rfl
  · exact (c5_facet_fields
      [⟨"A", AnalyticType.dimension⟩, ⟨"B", AnalyticType.measure⟩]).2.2.2.2
      ⟨"B", AnalyticType.measure⟩ (by decide) rfl

/-! ## Claim C1

The claim requires `getSVGData`/`getCanvasData` to return one entry per grid
cell once ready — in particular length 1 for a single view (the spec's §8
end-to-end test demands exactly this).  The multi-view branch records each
handle (`vegaRefs.current.push(res.view)`, line 332), but the single-view
branch's `.then` callback (lines 208-221) emits readiness without ever
recording `res.view`, so after readiness both exports return `[]` for a
single view: a slip in the code, not in the spec. -/

/-- Claim C1 (code-bug evaluation): at the spec's own end-to-end input
(`rows = [dimension "region"]`, `columns = [measure "sales"]`) the grid has
exactly one cell and the single-view branch is taken; after its embed
resolves, readiness has been emitted yet `getSVGData` and `getCanvasData`
return `[]`, not a singleton — while a two-cell multi-view cycle does record
one handle per cell.  Before any embed both exports return `[]`. -/
theorem c1_single_view_export_empty :
    viewNum [⟨"region", AnalyticType.dimension⟩] [⟨"sales", AnalyticType.measure⟩] = 1
    ∧ singleViewBranch [⟨"region", AnalyticType.dimension⟩]
        [⟨"sales", AnalyticType.measure⟩] = true
    ∧ (runSingleCycle ⟨"svg0", "png0"⟩ initOrch).readyEvents = [true]
    ∧ getSVGData (runSingleCycle ⟨"svg0", "png0"⟩ initOrch).vegaRefs = []
    ∧ getCanvasData (runSingleCycle ⟨"svg0", "png0"⟩ initOrch).vegaRefs = []
    ∧ getSVGData initOrch.vegaRefs = []
    ∧ getCanvasData initOrch.vegaRefs = []
    ∧ (getSVGData (runMultiCycle [⟨"s1", "p1"⟩, ⟨"s2", "p2"⟩] initOrch).vegaRefs).length = 2 := by
  decide

/-! ## Claim C2 -/

theorem settleStep_none_left (acc : Option Nat) : settleStep none acc = none := by
  cases acc <;> rfl

theorem settleStep_none_right (o : Option Nat) : settleStep o none = none := by
  cases o <;> rfl

/-- Claim C2: the aggregate ready emission of a multi-view cycle happens only
once every issued per-cell embed has resolved — at a time no earlier than any
constituent resolution, independently of completion order — and never happens
when any cell's embed rejects (stays pending forever): the fan-in has no
internal timeout. -/
theorem c2_ready_fan_in :
    (∀ (ts : List (Option Nat)) (T : Nat), readyEmitTime ts = some T →
        ∀ o ∈ ts, ∃ t, o = some t ∧ t ≤ T)
    ∧ (∀ ts : List (Option Nat), none ∈ ts → readyEmitTime ts = none)
    ∧ (∀ ts ts' : List (Option Nat), ts.Perm ts' →
        readyEmitTime ts = readyEmitTime ts') := by
  refine ⟨?_, ?_, ?_⟩
  · intro ts
    induction ts with
    | nil =>
      intro T h o ho
      simp at ho
    | cons a l ih =>
      intro T h o ho
      rw [readyEmitTime, promiseAllTime, List.foldr_cons] at h
      cases a with
      | none => rw [settleStep_none_left] at h; exact absurd h (by simp)
      | some t =>
        cases hacc : l.foldr settleStep (some 0) with
        | none =>
          rw [hacc, settleStep_none_right] at h
          exact absurd h (by simp)
        | some m =>
          rw [hacc] at h
          have hT : T = max t m := by
            have : some (max t m) = some T := h
            exact (Option.some.inj this).symm
          rcases List.mem_cons.mp ho with rfl | hol
          · exact ⟨t, rfl, hT ▸ Nat.le_max_left t m⟩
          · rcases ih m hacc o hol with ⟨u, hu, hum⟩
            exact ⟨u, hu, hT ▸ Nat.le_trans hum (Nat.le_max_right t m)⟩
  · intro ts h
    induction ts with
    | nil => simp at h
    | cons a l ih =>
      rw [readyEmitTime, promiseAllTime, List.foldr_cons]
      rcases List.mem_cons.mp h with rfl | hl
      · exact settleStep_none_left _
      · rw [show l.foldr settleStep (some 0) = none from ih hl]
        exact settleStep_none_right a
  · intro ts ts' p
    haveI : LeftCommutative settleStep := by
      constructor
      intro a b c
      cases a <;> cases b <;> cases c <;> simp [settleStep, Nat.max_left_comm]
    exact p.foldr_eq (some 0)

/-- Witness for C2: a 3-cell cycle whose cell 2 resolves last emits readiness
at cell 2's time; a cycle with a rejecting cell never emits; completion order
does not change the emission time. -/
theorem c2_ready_fan_in_witness :
    (∃ t, (some 7 : Option Nat) = some t ∧ t ≤ 9)
    ∧ readyEmitTime [some 1, none, some 2] = none
    ∧ readyEmitTime [some 1, some 9, some 2] = readyEmitTime [some 9, some 2, some 1] := by
  refine ⟨?_, ?_, ?_⟩
  · exact c2_ready_fan_in.1 [some 3, some 7, some 9] 9 (by decide) (some 7) (by decide)
  · exact c2_ready_fan_in.2.1 [some 1, none, some 2] (by decide)
  · exact c2_ready_fan_in.2.2 [some 1, some 9, some 2] [some 9, some 2, some 1]
      (by decide)

/-! ## Claim C3

`ready$` is a replay-less `Subject` seeded only through `startWith(false)`
inside `ready()` itself, so a `ready()` call made after the ready event has
fired — with no new emission coming — observes only `false` and never
resolves.  The claim ("resolves immediately if readiness has already been
reached") fails on the code. -/

/-- Counterexample to claim C3: with past readiness emissions `[true]` (the
ready event already fired) and no further emissions, the promise returned by
`ready()` never resolves, instead of resolving immediately. -/
theorem c3_ready_counterexample :
    readyCallResolution [true] [] = none := by
  decide

/-- Claim C3 (amended): the promise returned by `ready()` resolves exactly at
the first `true` emitted on the readiness channel strictly after the call
(the seeded `startWith(false)` never satisfies the `first(state => state)`
predicate), and past emissions are invisible to it: a call made after a ready
event, with no further ready emission, never resolves. -/
theorem c3_ready_edge_triggered (past future : List Bool) :
    readyCallResolution past future = future.find? (fun b => b) := by
  rfl

/-! ## Claim C6

The receipt guard is `entry.source === sourceId || !entry.data`; in JS an
empty array is truthy, so `!entry.data` rejects only `null`/`undefined`
payloads.  The claim's "ignored exactly when ... the payload is
empty/absent" fails for an empty-array payload, which the subscriber applies
with a state write like any other foreign entry. -/

/-- Helper: given a present payload, a view instance performs a state write
exactly when the entry is foreign. -/
theorem receiveEntry_writes (v : ViewInst) (e : ParamStoreEntry)
    (h : e.data.isSome = true) :
    (receiveEntry v e).writes = if e.source = v.sourceId then 0 else 1 := by
  obtain ⟨sig, src, d⟩ := e
  obtain ⟨sid, nb, st⟩ := v
  cases d with
  | none => simp at h
  | some xs =>
    by_cases hs : src = sid <;>
      simp [receiveEntry, ignoresEntry, onSignalFire, hs]

/-- Counterexample to claim C6: the empty-array payload `some []` is an empty
selection snapshot, yet a sibling view does not ignore it — the guard
`!entry.data` only catches `null`/absent payloads — and one state write is
performed. -/
theorem c6_empty_payload_counterexample :
    ignoresEntry ⟨1, false, none⟩ ⟨BRUSH_SIGNAL_NAME, 0, some []⟩ = false
    ∧ (receiveEntry ⟨1, false, none⟩ ⟨BRUSH_SIGNAL_NAME, 0, some []⟩).writes = 1 := by
  refine ⟨by decide, by decide⟩

/-- Claim C6 (amended): a view instance ignores a received entry exactly when
the entry's source index equals its own index or the payload is absent
(`null`); a present payload — even an empty array — from a foreign source
triggers exactly one state write of the received snapshot, sets the one-shot
suppression flag, and the single re-triggered self-emission is swallowed (no
echo broadcast, flag cleared); over any sibling list, one broadcast causes
exactly one write into each view whose index differs from the source and none
into the originating view. -/
theorem c6_bus_loop_prevention (v : ViewInst) (e : ParamStoreEntry) :
    ((receiveEntry v e).writes = 0 ↔ e.source = v.sourceId ∨ e.data = none)
    ∧ (e.source ≠ v.sourceId → e.data.isSome = true →
        (receiveEntry v e).writes = 1
        ∧ (receiveEntry v e).echoBroadcasts = []
        ∧ (receiveEntry v e).view.noBroadcasting = false
        ∧ (receiveEntry v e).view.store = e.data)
    ∧ (∀ views : List ViewInst, e.data.isSome = true →
        ((busBroadcast views e).map (fun r => r.writes)).sum
          = (views.filter (fun w => !(e.source == w.sourceId))).length) := by
  refine ⟨?_, ?_, ?_⟩
  · obtain ⟨sig, src, d⟩ := e
    obtain ⟨sid, nb, st⟩ := v
    by_cases hs : src = sid
    · cases d <;> simp [receiveEntry, ignoresEntry, onSignalFire, hs]
    · cases d <;> simp [receiveEntry, ignoresEntry, onSignalFire, hs]
  · intro hne hsome
    obtain ⟨sig, src, d⟩ := e
    obtain ⟨sid, nb, st⟩ := v
    cases d with
    | none => simp at hsome
    | some xs =>
      simp only [ne_eq] at hne
      simp [receiveEntry, ignoresEntry, onSignalFire, hne]
  · intro views hsome
    induction views with
    | nil => rfl
    | cons w ws ih =>
      simp only [busBroadcast, List.map_cons, List.sum_cons, List.filter_cons]
      rw [receiveEntry_writes w e hsome]
      by_cases hs : e.source = w.sourceId
      · have hb : (e.source == w.sourceId) = true := beq_iff_eq.mpr hs
        rw [if_pos hs, hb]
        simpa [busBroadcast] using ih
      · have hb : (e.source == w.sourceId) = false := beq_eq_false_iff_ne.mpr hs
        rw [if_neg hs, hb]
        have ih2 := ih
        simp only [busBroadcast] at ih2
        simp only [Bool.not_false, if_true, List.length_cons]
        omega

/-- Witness for the amended C6: a foreign non-null entry received by view 1
yields one write, no echo broadcast, a cleared flag; across the sibling list
`[view 0, view 1]` a broadcast from view 0 yields one write in total. -/
theorem c6_bus_loop_prevention_witness :
    ((receiveEntry ⟨1, false, none⟩ ⟨"__gw_brush__", 0, some [5]⟩).writes = 1
      ∧ (receiveEntry ⟨1, false, none⟩ ⟨"__gw_brush__", 0, some [5]⟩).echoBroadcasts = []
      ∧ (receiveEntry ⟨1, false, none⟩ ⟨"__gw_brush__", 0, some [5]⟩).view.noBroadcasting = false
      ∧ (receiveEntry ⟨1, false, none⟩ ⟨"__gw_brush__", 0, some [5]⟩).view.store = some [5])
    ∧ ((busBroadcast [⟨0, false, some [5]⟩, ⟨1, false, none⟩]
          ⟨"__gw_brush__", 0, some [5]⟩).map (fun r => r.writes)).sum
        = ([⟨0, false, some [5]⟩, ⟨1, false, none⟩].filter
            (fun w : ViewInst => !((0 : Nat) == w.sourceId))).length := by
  refine ⟨?_, ?_⟩
  · exact (c6_bus_loop_prevention ⟨1, false, none⟩ ⟨"__gw_brush__", 0, some [5]⟩).2.1
      (by decide) (by decide)
  · exact (c6_bus_loop_prevention ⟨1, false, none⟩ ⟨"__gw_brush__", 0, some [5]⟩).2.2
      [⟨0, false, some [5]⟩, ⟨1, false, none⟩] (by decide)

/-! ## Claim C7 -/

/-- Claim C7: the shared bus channel is throttled trailing-edge only (no
leading emission) at interval `dataSource.length / 64 * rowRepeatCount *
colRepeatCount`, and doubling `rowCount * dataLength` with the remaining
factor fixed exactly doubles the interval. -/
theorem c7_throttle_interval (dataLen rowRepeat colRepeat : Nat) :
    (throttledParamStoreCfg dataLen rowRepeat colRepeat).leading = false
    ∧ (throttledParamStoreCfg dataLen rowRepeat colRepeat).trailing = true
    ∧ (throttledParamStoreCfg dataLen rowRepeat colRepeat).interval
        = (dataLen * rowRepeat * colRepeat : ℚ) / 64
    ∧ (∀ dataLen2 rowRepeat2 : Nat,
        dataLen2 * rowRepeat2 = 2 * (dataLen * rowRepeat) →
        (throttledParamStoreCfg dataLen2 rowRepeat2 colRepeat).interval
          = 2 * (throttledParamStoreCfg dataLen rowRepeat colRepeat).interval) := by
  refine ⟨rfl, rfl, ?_, ?_⟩
  · show (dataLen : ℚ) / 64 * rowRepeat * colRepeat = (dataLen * rowRepeat * colRepeat : ℚ) / 64
    ring
  · intro dataLen2 rowRepeat2 h
    show (dataLen2 : ℚ) / 64 * rowRepeat2 * colRepeat
        = 2 * ((dataLen : ℚ) / 64 * rowRepeat * colRepeat)
    have hq : (dataLen2 : ℚ) * rowRepeat2 = 2 * ((dataLen : ℚ) * rowRepeat) := by
      exact_mod_cast h
    calc (dataLen2 : ℚ) / 64 * rowRepeat2 * colRepeat
        = ((dataLen2 : ℚ) * rowRepeat2) * colRepeat / 64 := by ring
      _ = (2 * ((dataLen : ℚ) * rowRepeat)) * colRepeat / 64 := by rw [hq]
      _ = 2 * ((dataLen : ℚ) / 64 * rowRepeat * colRepeat) := by ring

/-- Witness for C7: 128 rows in one view-row double 64 rows in one view-row,
and the interval doubles from 2 to 4 (two view-columns). -/
theorem c7_throttle_interval_witness :
    (throttledParamStoreCfg 128 1 2).interval = 2 * (throttledParamStoreCfg 64 1 2).interval := by
  exact (c7_throttle_interval 64 1 2).2.2.2 128 1 (by decide)

theorem reduceOption_map_some_eq (l : List α) : (l.map some).reduceOption = l := by
  induction l with
  | nil => rfl
  | cons a t ih => simp [List.reduceOption_cons_of_some, ih]

/-! ## Claim C8

`allFieldIds` (line 128) collects ids from `rows`, `columns`, `color`,
`opacity` and `size` only; fields bound to `shape`, `theta`, `radius` or
`detail` never reach the point-selection parameter's `fields`, contradicting
the claim's "every channel-bound field". -/

/-- Counterexample to claim C8: a field bound to the `shape` channel (and to
no other channel) is absent from the point-selection parameter's fields. -/
theorem c8_point_fields_counterexample :
    compiledParams [] [] none none none (some ⟨"s", AnalyticType.dimension⟩)
        none none [] false
      = [SpecParam.point "geom" []]
    ∧ "s" ∉ pointFields (compiledParams [] [] none none none
        (some ⟨"s", AnalyticType.dimension⟩) none none [] false) := by
  refine ⟨by decide, by decide⟩

/-- Claim C8 (amended): the point-selection parameter's fields are exactly
the ids of the fields bound to rows, columns, color, opacity and size (in
that order); shape-, theta-, radius- and detail-bound fields are not
included; and the interval-selection parameter bound to scales is in the
compiled params exactly when interactive pan/zoom is enabled. -/
theorem c8_point_fields (rows columns : List IViewField)
    (color opacity size shape theta radius : Option IViewField)
    (details : List IViewField) (iscale : Bool) :
    pointFields (compiledParams rows columns color opacity size shape theta radius
        details iscale)
      = rows.map (fun f => f.fid) ++ columns.map (fun f => f.fid)
        ++ ([color, opacity, size].reduceOption.map (fun f => f.fid))
    ∧ (SpecParam.interval "grid" "scales"
        ∈ compiledParams rows columns color opacity size shape theta radius details iscale
        ↔ iscale = true) := by
  constructor
  · cases iscale <;>
      simp [compiledParams, specParams, pointFields, allFieldIds,
        List.reduceOption_append, reduceOption_map_some_eq]
  · cases iscale <;> simp [compiledParams, specParams]

/-! ## Claim C9 -/

/-- Claim C9: when the upstream filter/transform/view-query pipeline rejects,
the renderer effect logs the error and keeps the prior rendered state —
`viewData`, `encodings` and `viewConfig` are unchanged and only the `waiting`
flag is cleared.  `runPipelineEffect` is a total function of the pipeline's
settling, so no exception propagates to the host. -/
theorem c9_pipeline_error_keeps_state (s : RendererState) (e : String) :
    (runPipelineEffect s (Except.error e)).viewData = s.viewData
    ∧ (runPipelineEffect s (Except.error e)).encodings = s.encodings
    ∧ (runPipelineEffect s (Except.error e)).viewConfig = s.viewConfig
    ∧ (runPipelineEffect s (Except.error e)).waiting = false
    ∧ (runPipelineEffect s (Except.error e)).errorLog = s.errorLog ++ [e] := by
  exact ⟨rfl, rfl, rfl, rfl, rfl⟩

/-! ## Claim C10 -/

/-- Claim C10: `downloadSVG` and `downloadPNG` always resolve to an empty
`files` list — the array is initialised empty and never appended to — even
though one client-side save is triggered per recorded view handle, with an
`_index` filename suffix when more than one view exists and the bare name for
a single view. -/
theorem c10_download_files_empty (vegaRefs : List View) (filename : String) :
    (downloadSVG vegaRefs filename).1 = []
    ∧ (downloadPNG vegaRefs filename).1 = []
    ∧ (downloadSVG vegaRefs filename).2.length = vegaRefs.length
    ∧ (downloadPNG vegaRefs filename).2.length = vegaRefs.length
    ∧ (vegaRefs.length = 1 →
        (downloadSVG vegaRefs filename).2 = [⟨filename ++ ".svg"⟩])
    ∧ (∀ i, i < vegaRefs.length → 1 < vegaRefs.length →
        (downloadSVG vegaRefs filename).2[i]?
          = some ⟨filename ++ ("_" ++ toString (i + 1)) ++ ".svg"⟩) := by
  refine ⟨rfl, rfl, ?_, ?_, ?_, ?_⟩
  · simp [downloadSVG]
  · simp [downloadPNG]
  · intro h
    simp [downloadSVG, h, List.range_succ]
  · intro i hi hgt
    have hl : (vegaRefs.map (fun v => v.svg)).length = vegaRefs.length :=
      List.length_map _ _
    simp only [downloadSVG, List.getElem?_map, List.getElem?_range, hl, hi,
      if_pos, dif_pos]
    simp [hgt]

/-- Witness for C10: with two recorded handles the files list is empty, two
saves are triggered, and the first save's name carries the `_1` suffix; with
one handle the single save has the bare name. -/
theorem c10_download_files_empty_witness :
    (downloadSVG [⟨"s1", "p1"⟩, ⟨"s2", "p2"⟩] "f").1 = []
    ∧ (downloadSVG [⟨"s1", "p1"⟩, ⟨"s2", "p2"⟩] "f").2.length = 2
    ∧ (downloadSVG [⟨"s1", "p1"⟩, ⟨"s2", "p2"⟩] "f").2[0]?
        = some ⟨"f" ++ ("_" ++ toString (0 + 1)) ++ ".svg"⟩
    ∧ (downloadSVG [⟨"s0", "p0"⟩] "f").2 = [⟨"f" ++ ".svg"⟩] := by
  refine ⟨?_, ?_, ?_, ?_⟩
  · exact (c10_download_files_empty [⟨"s1", "p1"⟩, ⟨"s2", "p2"⟩] "f").1
  · exact (c10_download_files_empty [⟨"s1", "p1"⟩, ⟨"s2", "p2"⟩] "f").2.2.1
  · exact (c10_download_files_empty [⟨"s1", "p1"⟩, ⟨"s2", "p2"⟩] "f").2.2.2.2.2
      0 (by decide) (by decide)
  · exact (c10_download_files_empty [⟨"s0", "p0"⟩] "f").2.2.2.2.1 (by decide)

end GraphicWalker
